import Mathlib

/-!
Verification development for the chucky-sdk-go session protocol engine.

Shallow embedding of:
- `pkg/types` (wire envelopes, errors, options),
- `pkg/transport` (`transport.go`, `websocket.go`),
- `pkg/chucky` (`client.go`, `session.go`).

Modelling conventions:
- Go strings are Lean `String`s; Go string-typed enums keep their constant
  names as `String` definitions.
- Go `any` JSON-like values are modelled by the inductive `GoValue`;
  Go maps are association lists.
- The concurrent callback execution (transport read loop invoking the
  session handlers) is modelled as a sequential interleaving of the atomic
  handler bodies; every mutation a handler performs under its locks is one
  step of a state-transition function.
- Interactions of the `Session` with its collaborators (the `Transport`
  interface and the owning `Client`) are recorded in effect logs inside the
  session state: `sent` is the list of arguments of `transport.Send` calls,
  `disconnectCalls` counts `transport.Disconnect` calls,
  `removeSessionCalls` and `sessionStartCalls` record the arguments of
  `client.removeSession` / `client.notifySessionStart`, and `closeNotifs`
  counts invocations of the registered `OnClose` callback.
- External nondeterminism (dial failure, socket write failure, context
  cancellation, the inbound messages delivered by the read loop) is passed
  to the modelled operations as explicit parameters.
-/

namespace ChuckySDK

/-- Go `any` values as decoded from JSON (inputs, schemas, untyped payload
data).  Objects keep their fields as an association list. -/
inductive GoValue where
  | null
  | bool (b : Bool)
  | num (n : Int)
  | str (s : String)
  | arr (xs : List GoValue)
  | obj (fields : List (String × GoValue))

/-! Message type tags (`pkg/types/messages.go`). -/

def MessageTypeInit : String := "init"
def MessageTypeUser : String := "user"
def MessageTypeAssistant : String := "assistant"
def MessageTypeSystem : String := "system"
def MessageTypeResult : String := "result"
def MessageTypeStreamEvent : String := "stream_event"
def MessageTypeControl : String := "control"
def MessageTypeError : String := "error"
def MessageTypePing : String := "ping"
def MessageTypePong : String := "pong"
def MessageTypeToolCall : String := "tool_call"
def MessageTypeToolResult : String := "tool_result"

def SystemSubtypeInit : String := "init"
def SystemSubtypeCompactBoundary : String := "compact_boundary"

def ControlActionReady : String := "ready"
def ControlActionSessionInfo : String := "session_info"
def ControlActionEndInput : String := "end_input"
def ControlActionClose : String := "close"

def RoleUser : String := "user"
def RoleAssistant : String := "assistant"
def RoleSystem : String := "system"

/-! Errors (`pkg/types/errors.go`).  The `Details` map and the wrapped
`Err` of `ChuckyError` carry external error values and are not inspected by
any of the session/transport logic modelled here; `code` and `message` are
kept. -/

def ErrCodeConnection : String := "CONNECTION_ERROR"
def ErrCodeSession : String := "SESSION_ERROR"
def ErrCodeTimeout : String := "TIMEOUT_ERROR"
def ErrCodeProtocol : String := "PROTOCOL_ERROR"

/-- Base error type for all SDK errors. -/
structure ChuckyError where
  code : String
  message : String

def ConnectionError (message : String) : ChuckyError :=
  { code := ErrCodeConnection, message := message }

def SessionError (message : String) : ChuckyError :=
  { code := ErrCodeSession, message := message }

def TimeoutError (message : String) : ChuckyError :=
  { code := ErrCodeTimeout, message := message }

def ProtocolError (message : String) : ChuckyError :=
  { code := ErrCodeProtocol, message := message }

/-- An error returned by a session-level operation: either an SDK
`ChuckyError` or the Go context's cancellation error (`ctx.Err()`). -/
inductive GoError where
  | chucky (e : ChuckyError)
  | ctxCanceled

/-! Wire envelope structures (`pkg/types/messages.go`). -/

/-- Message with role and content (content is a string or content blocks). -/
structure Message where
  role : String
  content : GoValue

/-- Token usage statistics. -/
structure Usage where
  inputTokens : Int
  outputTokens : Int
  cacheCreationInputTokens : Int
  cacheReadInputTokens : Int

/-- Output format configuration. -/
structure OutputFormat where
  type : String
  schema : GoValue

/-- Initialization configuration carried by the outbound init envelope. -/
structure InitPayload where
  model : String
  fallbackModel : String
  systemPrompt : GoValue
  maxTurns : Int
  maxBudgetUsd : Float
  maxThinkingTokens : Int
  tools : GoValue
  mcpServers : GoValue
  permissionMode : String
  outputFormat : Option OutputFormat
  includePartialMessages : Bool
  env : List (String × String)
  sessionID : String
  forkSession : Bool
  resumeSessionAt : String
  continueFlag : Bool

/-- Init message sent to start a session (Go `InitEnvelope`). -/
structure InitEnvelope where
  type : String
  payload : InitPayload

/-- User message sent to Claude (Go `SDKUserMessage`). -/
structure SDKUserMessage where
  type : String
  uuid : String
  sessionID : String
  message : Message
  parentToolUseID : Option String

/-- Control message payload. -/
structure ControlPayload where
  action : String
  data : Option GoValue

/-- Control message for session management. -/
structure ControlEnvelope where
  type : String
  payload : ControlPayload

/-- Ping message payload (epoch-millisecond timestamp). -/
structure PingPayload where
  timestamp : Int

/-- Keep-alive ping message. -/
structure PingEnvelope where
  type : String
  payload : PingPayload

/-- Pong message payload. -/
structure PongPayload where
  timestamp : Int

/-- Keep-alive pong response. -/
structure PongEnvelope where
  type : String
  payload : PongPayload

/-- Text content from a tool (Go `TextToolContent`). -/
structure TextToolContent where
  type : String
  text : String

/-- Image content from a tool. -/
structure ImageToolContent where
  type : String
  data : String
  mimeType : String

/-- Resource content from a tool. -/
structure ResourceToolContent where
  type : String
  uri : String
  mimeType : String
  text : String
  blob : String

/-- Content returned by a tool (Go interface `ToolContent`). -/
inductive ToolContent where
  | text (c : TextToolContent)
  | image (c : ImageToolContent)
  | resource (c : ResourceToolContent)

/-- Result of a tool execution; `content` holds `ToolContent` values. -/
structure ToolResult where
  content : List ToolContent
  isError : Bool

/-- Tool result payload; `result` models the Go `*ToolResult` pointer. -/
structure ToolResultPayload where
  callID : String
  result : Option ToolResult

/-- Envelope sending a tool execution result. -/
structure ToolResultEnvelope where
  type : String
  payload : ToolResultPayload

/-- Tool call payload. -/
structure ToolCallPayload where
  callID : String
  toolName : String
  input : GoValue

/-- Envelope requesting execution of a tool. -/
structure ToolCallEnvelope where
  type : String
  payload : ToolCallPayload

/-- Assistant response from Claude. -/
structure SDKAssistantMessage where
  type : String
  uuid : String
  sessionID : String
  message : Message
  parentToolUseID : Option String

/-- Final result of a session. -/
structure SDKResultMessage where
  type : String
  subtype : String
  uuid : String
  sessionID : String
  durationMs : Int
  durationApiMs : Int
  isError : Bool
  numTurns : Int
  result : String
  totalCostUsd : Float
  usage : Usage
  errors : List String

/-- System message from the server. -/
structure SDKSystemMessage where
  type : String
  subtype : String
  uuid : String
  sessionID : String
  data : Option GoValue

/-- Streaming event (Go `SDKPartialAssistantMessage`). -/
structure SDKPartialAssistantMessage where
  type : String
  event : GoValue
  uuid : String
  sessionID : String
  parentToolUseID : Option String

/-- Error message payload. -/
structure ErrorPayload where
  message : String
  code : String
  details : Option GoValue

/-- Error message from the server. -/
structure ErrorEnvelope where
  type : String
  payload : ErrorPayload

/-- Holder for unknown message types. -/
structure GenericMessage where
  rawType : String
  data : List (String × GoValue)

/-- Inbound messages, one constructor per concrete Go type implementing the
`IncomingMessage` interface (the cases of `ParseIncomingMessage`). -/
inductive IncomingMessage where
  | assistant (m : SDKAssistantMessage)
  | result (m : SDKResultMessage)
  | system (m : SDKSystemMessage)
  | streamEvent (m : SDKPartialAssistantMessage)
  | control (m : ControlEnvelope)
  | error (m : ErrorEnvelope)
  | pong (m : PongEnvelope)
  | toolCall (m : ToolCallEnvelope)
  | generic (m : GenericMessage)

/-- Outbound messages, one constructor per concrete Go type the SDK sends
through `Transport.Send`. -/
inductive OutgoingMessage where
  | init (m : InitEnvelope)
  | user (m : SDKUserMessage)
  | control (m : ControlEnvelope)
  | ping (m : PingEnvelope)
  | toolResult (m : ToolResultEnvelope)

/-! Tool and MCP server declarations (`pkg/types`, tools file).  The
`ToolInputSchema` / `JsonSchemaProperty` structures are inert declaration
data serialized into the init envelope; they are carried as `GoValue`. -/

/-- Function signature for tool handlers.  Go:
`func(ctx context.Context, input map[string]any) (*ToolResult, error)`.
The `context.Context` argument is ambient and unused by the dispatch logic;
the pair return is modelled as `Except`: `.error e` is a non-nil error with
text `e`, `.ok r` is a nil error with the (possibly nil) result pointer. -/
def ToolHandler : Type :=
  List (String × GoValue) → Except String (Option ToolResult)

/-- Tool declaration attached to session options. -/
structure ToolDefinition where
  name : String
  description : String
  inputSchema : GoValue
  executeIn : String
  handler : Option ToolHandler

/-- MCP server with client-side tools. -/
structure McpClientToolsServer where
  name : String
  version : String
  tools : List ToolDefinition

/-- MCP server running via stdio. -/
structure McpStdioServerConfig where
  name : String
  type : String
  command : String
  args : List String
  env : List (String × String)

/-- MCP server using SSE transport. -/
structure McpSSEServerConfig where
  name : String
  type : String
  url : String
  headers : List (String × String)

/-- MCP server using HTTP transport. -/
structure McpHTTPServerConfig where
  name : String
  type : String
  url : String
  headers : List (String × String)

/-- MCP server configurations, one constructor per concrete Go type
implementing the `McpServerDefinition` interface. -/
inductive McpServerDefinition where
  | clientTools (s : McpClientToolsServer)
  | stdio (s : McpStdioServerConfig)
  | sse (s : McpSSEServerConfig)
  | http (s : McpHTTPServerConfig)

/-- Session options (`pkg/types`, `SessionOptions` with its embedded
`BaseOptions`).  `continueFlag` is the Go field `Continue` (a Lean
keyword). -/
structure SessionOptions where
  model : String
  fallbackModel : String
  systemPrompt : GoValue
  maxTurns : Int
  maxBudgetUsd : Float
  maxThinkingTokens : Int
  tools : GoValue
  mcpServers : List McpServerDefinition
  permissionMode : String
  outputFormat : Option OutputFormat
  includePartialMessages : Bool
  env : List (String × String)
  sessionID : String
  forkSession : Bool
  resumeSessionAt : String
  continueFlag : Bool
  settingSources : List String

/-! Session state machine (`pkg/chucky/session.go`). -/

/-- Current state of a session. -/
inductive SessionState where
  | idle
  | initializing
  | ready
  | processing
  | waitingTool
  | completed
  | error
deriving DecidableEq

/-- Presence of the optional session event callbacks (`SessionEventHandlers`
holds Go function values; only whether each is nil matters to the control
flow, and invocations are counted in the session's effect logs). -/
structure SessionEventHandlers where
  onMessage : Bool
  onError : Bool
  onClose : Bool

/-- Session state.  The Go struct's synchronization fields are modelled as
follows: `closed` is `closeCh` being closed, which is also the `closeOnce`
guard (the once body is the only place that closes `closeCh`);
`readyClosed` is `readyCh` being closed (the `readyOnce` guard likewise);
the mutexes disappear because each handler body is one atomic step.
`errCh` only buffers errors for an unused consumer and is not modelled.
The trailing fields are effect logs of calls to the `Transport` interface,
the owning `Client`, and the registered callbacks. -/
structure Session where
  sessionID : String
  state : SessionState
  handlers : SessionEventHandlers
  connected : Bool
  closed : Bool
  readyClosed : Bool
  initErr : Option ChuckyError
  msgCh : List IncomingMessage
  toolHandlers : List (String × ToolHandler)
  options : SessionOptions
  sent : List OutgoingMessage
  disconnectCalls : Nat
  removeSessionCalls : List String
  sessionStartCalls : List String
  closeNotifs : Nat

/-- Map assignment `m[k] = v` on an association list: replaces any existing
binding of `k` and adds the new one. -/
def mapInsert {α : Type} (m : List (String × α)) (k : String) (v : α) :
    List (String × α) :=
  m.filter (fun kv => kv.1 != k) ++ [(k, v)]

/-- Extracts tool handlers from the MCP servers: every tool of a
`McpClientToolsServer` that carries a handler is registered under its name
(`Session.extractToolHandlers`). -/
def extractToolHandlers (opts : SessionOptions) : List (String × ToolHandler) :=
  opts.mcpServers.foldl
    (fun acc server =>
      match server with
      | .clientTools clientTools =>
        clientTools.tools.foldl
          (fun acc tool =>
            match tool.handler with
            | some h => mapInsert acc tool.name h
            | none => acc)
          acc
      | _ => acc)
    []

/-- Creates a session (`newSession`).  The server will assign the session
identity, so it starts empty; the Go constructor also wires the transport
callbacks to the handler functions modelled below. -/
def newSession (opts : SessionOptions) : Session :=
  { sessionID := ""
    state := .idle
    handlers := { onMessage := false, onError := false, onClose := false }
    connected := false
    closed := false
    readyClosed := false
    initErr := none
    msgCh := []
    toolHandlers := extractToolHandlers opts
    options := opts
    sent := []
    disconnectCalls := 0
    removeSessionCalls := []
    sessionStartCalls := []
    closeNotifs := 0 }

/-- Sets the session event handlers (`Session.On`). -/
def Session.on (s : Session) (handlers : SessionEventHandlers) : Session :=
  { s with handlers := handlers }

/-- Records a call to `transport.Send`.  The call's error return (a socket
write or marshal failure inside the transport) is external to the session
and is supplied separately as a parameter wherever the source branches on
it. -/
def Session.transportSend (s : Session) (msg : OutgoingMessage) : Session :=
  { s with sent := s.sent ++ [msg] }

/-- Converts one MCP server declaration to its wire form
(`Session.mcpServerToMap`).  The Go type switch's nil default is
unreachable for the closed set of server types. -/
def mcpServerToMap (server : McpServerDefinition) : GoValue :=
  match server with
  | .clientTools srv =>
    .obj [("name", .str srv.name),
          ("version", .str srv.version),
          ("tools", .arr (srv.tools.map (fun tool =>
            let fields := [("name", GoValue.str tool.name),
                           ("description", GoValue.str tool.description),
                           ("inputSchema", tool.inputSchema)]
            match tool.handler with
            | some _ => .obj (fields ++ [("executeIn", .str "client")])
            | none => .obj fields)))]
  | .stdio srv =>
    .obj [("name", .str srv.name), ("type", .str "stdio"),
          ("command", .str srv.command),
          ("args", .arr (srv.args.map GoValue.str)),
          ("env", .obj (srv.env.map (fun kv => (kv.1, GoValue.str kv.2))))]
  | .sse srv =>
    .obj [("name", .str srv.name), ("type", .str "sse"),
          ("url", .str srv.url),
          ("headers", .obj (srv.headers.map (fun kv => (kv.1, GoValue.str kv.2))))]
  | .http srv =>
    .obj [("name", .str srv.name), ("type", .str "http"),
          ("url", .str srv.url),
          ("headers", .obj (srv.headers.map (fun kv => (kv.1, GoValue.str kv.2))))]

/-- The init envelope built by `Session.sendInit`: the session configuration
in wire form.  The session identity is never sent (the `sessionID` field of
the payload stays at its zero value); the server assigns it. -/
def initEnvelope (opts : SessionOptions) : InitEnvelope :=
  { type := MessageTypeInit
    payload :=
      { model := opts.model
        fallbackModel := opts.fallbackModel
        systemPrompt := opts.systemPrompt
        maxTurns := opts.maxTurns
        maxBudgetUsd := opts.maxBudgetUsd
        maxThinkingTokens := opts.maxThinkingTokens
        tools := opts.tools
        mcpServers :=
          if opts.mcpServers.length > 0 then
            .arr (opts.mcpServers.map mcpServerToMap)
          else .null
        permissionMode := opts.permissionMode
        outputFormat := opts.outputFormat
        includePartialMessages := opts.includePartialMessages
        env := opts.env
        sessionID := ""
        forkSession := opts.forkSession
        resumeSessionAt := opts.resumeSessionAt
        continueFlag := opts.continueFlag } }

/-- Closes `readyCh` through `readyOnce.Do` (idempotent). -/
def Session.signalReady (s : Session) : Session :=
  { s with readyClosed := true }

/-- Delivery of a message to the consumer channel:
`select { case s.msgCh <- msg: case <-s.closeCh: }`.  When `closeCh` is
closed the message may be dropped (the model takes the drop branch); while
open, the send delivers — the 100-slot buffer capacity only delays
delivery in the concurrent program and never reorders or loses messages,
so it does not appear in the sequential model. -/
def Session.forwardMessage (s : Session) (msg : IncomingMessage) : Session :=
  if s.closed then s else { s with msgCh := s.msgCh ++ [msg] }

/-- Conversion of the untyped tool input to a `map[string]any`
(`Session.handleToolCall`, input switch): a map is used as is; any other
value is re-encoded through JSON, and unmarshalling a non-object into a
map fails, leaving the map nil (the source discards that error). -/
def toolCallInputToMap (input : GoValue) : List (String × GoValue) :=
  match input with
  | .obj fields => fields
  | _ => []

/-- Handles an inbound tool call (`Session.handleToolCall`): transitions to
`waitingTool`, looks up the handler, produces the error result for an
unregistered name or a failing handler, sends the `ToolResultEnvelope`
addressed to the original call identifier, and returns to `processing`. -/
def Session.handleToolCall (s : Session) (call : ToolCallEnvelope) : Session :=
  let s := { s with state := .waitingTool }
  let result : Option ToolResult :=
    match s.toolHandlers.lookup call.payload.toolName with
    | none =>
      some { content := [.text { type := "text",
                                 text := "Tool not found: " ++ call.payload.toolName }]
             isError := true }
    | some handler =>
      match handler (toolCallInputToMap call.payload.input) with
      | .error e =>
        some { content := [.text { type := "text",
                                   text := "Tool execution error: " ++ e }]
               isError := true }
      | .ok r => r
  let resultMsg : ToolResultEnvelope :=
    { type := MessageTypeToolResult
      payload := { callID := call.payload.callID, result := result } }
  let s := s.transportSend (.toolResult resultMsg)
  { s with state := .processing }

/-- Tail of `Session.handleMessage` after the initialization block: tool
calls are diverted to `handleToolCall`, everything else is forwarded to the
message channel (and to the `OnMessage` callback, which observes but does
not mutate session state). -/
def Session.dispatchMessage (s : Session) (msg : IncomingMessage) : Session :=
  match msg with
  | .toolCall call => s.handleToolCall call
  | _ => s.forwardMessage msg

/-- Inbound message handler (`Session.handleMessage`), invoked by the
transport read loop.  Before the session is connected: a control
ready/session_info envelope signals readiness and is swallowed; a
system/init envelope updates the session identity (when non-empty),
signals readiness, and still falls through to delivery; an error envelope
records the handshake failure, signals readiness, and falls through. -/
def Session.handleMessage (s : Session) (msg : IncomingMessage) : Session :=
  if s.connected then s.dispatchMessage msg
  else
    match msg with
    | .control m =>
      if m.payload.action = ControlActionReady ∨
         m.payload.action = ControlActionSessionInfo then
        s.signalReady
      else s.dispatchMessage msg
    | .system m =>
      if m.subtype = SystemSubtypeInit then
        let s := if m.sessionID ≠ "" then { s with sessionID := m.sessionID } else s
        (s.signalReady).dispatchMessage msg
      else s.dispatchMessage msg
    | .error m =>
      (({ s with initErr := some (SessionError m.payload.message) }).signalReady).dispatchMessage msg
    | _ => s.dispatchMessage msg

/-- Folds a sequence of inbound messages through the handler: the read
loop's deliveries, in arrival order. -/
def Session.processMessages (s : Session) (msgs : List IncomingMessage) : Session :=
  msgs.foldl Session.handleMessage s

/-- Establishes the connection and initializes the session
(`Session.Connect`).  The environment's contributions are explicit
parameters: `tcErr` is the result of `transport.Connect`, `wrErr` of
`transport.WaitForReady`, `siErr` the error return of the `transport.Send`
carrying the init envelope, `arrivals` the inbound messages the read loop
delivers to `handleMessage` before the ready-wait select wakes, and
`ctxDone` whether the caller's context fires.  When several select cases
are enabled the model resolves `readyCh` first, then the context, then
`closeCh`; `none` is the run in which no case ever fires (Connect blocks
forever).  The wait on the ready signal and the code after it
(`Session.Connect`, select onward) are factored into `connectAwait`;
`connect` below is the whole method. -/
def Session.connectAwait (s : Session) (ctxDone : Bool) :
    Option (Session × Option GoError) :=
  if s.readyClosed then
    match s.initErr with
    | some e => some ({ s with state := .error }, some (.chucky e))
    | none =>
      let s := { s with connected := true }
      let s := { s with state := .ready }
      some ({ s with sessionStartCalls := s.sessionStartCalls ++ [s.sessionID] },
            none)
  else if ctxDone then
    some ({ s with state := .error }, some .ctxCanceled)
  else if s.closed then
    some ({ s with state := .error },
          some (.chucky (SessionError "session closed during initialization")))
  else none

def Session.connect (s : Session) (tcErr wrErr siErr : Option ChuckyError)
    (arrivals : List IncomingMessage) (ctxDone : Bool) :
    Option (Session × Option GoError) :=
  if s.connected then some (s, none)
  else
    let s := { s with state := .initializing }
    match tcErr with
    | some e => some ({ s with state := .error }, some (.chucky e))
    | none =>
      match wrErr with
      | some e => some ({ s with state := .error }, some (.chucky e))
      | none =>
        let s := s.transportSend (.init (initEnvelope s.options))
        match siErr with
        | some e => some ({ s with state := .error }, some (.chucky e))
        | none => Session.connectAwait (s.processMessages arrivals) ctxDone

/-- Body of `Session.Send` once connected: transitions to `processing` and
emits a User envelope carrying the server-assigned identity or the
placeholder "unknown".  `uuid` stands for the freshly generated
`uuid.New().String()`; the returned error is `transport.Send`'s, whose
failure is a socket fault external to this model. -/
def Session.sendBody (s : Session) (message uuid : String) :
    Session × Option GoError :=
  let s := { s with state := .processing }
  let sessionID := if s.sessionID = "" then "unknown" else s.sessionID
  let msg : SDKUserMessage :=
    { type := MessageTypeUser
      uuid := uuid
      sessionID := sessionID
      message := { role := RoleUser, content := .str message }
      parentToolUseID := none }
  (s.transportSend (.user msg), none)

/-- Sends a user message (`Session.Send`): auto-connects first when not yet
connected, propagating Connect's error; the connect environment parameters
are as in `Session.connect` and are unused on the already-connected
path. -/
def Session.send (s : Session) (tcErr wrErr siErr : Option ChuckyError)
    (arrivals : List IncomingMessage) (ctxDone : Bool) (message uuid : String) :
    Option (Session × Option GoError) :=
  if s.connected then some (s.sendBody message uuid)
  else
    match s.connect tcErr wrErr siErr arrivals ctxDone with
    | none => none
    | some (s', some e) => some (s', some e)
    | some (s', none) => some (s'.sendBody message uuid)

/-- The best-effort close control envelope sent by `Session.Close`. -/
def closeControlEnvelope : ControlEnvelope :=
  { type := MessageTypeControl
    payload := { action := ControlActionClose, data := none } }

/-- Closes the session (`Session.Close`): under the `closeOnce` guard,
closes `closeCh`, best-effort sends the close control envelope, disconnects
the transport, removes the session from the client's registry (passing the
current `sessionID`), and invokes the close notification when
registered. -/
def Session.close (s : Session) : Session :=
  if s.closed then s
  else
    let s := { s with closed := true }
    let s := s.transportSend (.control closeControlEnvelope)
    let s := { s with disconnectCalls := s.disconnectCalls + 1 }
    let s := { s with removeSessionCalls := s.removeSessionCalls ++ [s.sessionID] }
    if s.handlers.onClose then { s with closeNotifs := s.closeNotifs + 1 } else s

/-- Iterates `Session.Close` a number of times. -/
def Session.closeN : Nat → Session → Session
  | 0, s => s
  | n + 1, s => Session.closeN n s.close

/-- Whether an inbound message is a Result envelope (the Go type assertion
`msg.(*types.SDKResultMessage)`). -/
def isResultMessage : IncomingMessage → Bool
  | .result _ => true
  | _ => false

/-- The forwarding goroutine of `Session.Stream`, consuming the buffered
channel contents `buf`: returns the messages delivered to the consumer, the
resulting session, and whether the output channel was closed (the goroutine
returned).  Forwarding a Result envelope transitions the state to
`completed` and terminates; a closed `closeCh` terminates without
delivering; an exhausted buffer leaves the goroutine blocked on the next
receive (`false`).  Caller cancellation (`ctx.Done()`) is an external event
outside this run. -/
def Session.streamLoop (s : Session) :
    List IncomingMessage → List IncomingMessage × Session × Bool
  | [] => ([], s, false)
  | msg :: rest =>
    if s.closed then ([], s, true)
    else if isResultMessage msg then ([msg], { s with state := .completed }, true)
    else
      let r := s.streamLoop rest
      (msg :: r.1, r.2)

/-! Client registry (`pkg/chucky/client.go`).  The registry maps a string
key to the session object; sessions are identified here by an abstract
token (`Nat`), since registry membership — not the stored value — is what
the proofs inspect. -/

/-- The Client's mutable state relevant to the registry: the session map
and the session-end notification effects (`OnSessionEnd` presence flag and
the invocation log). -/
structure Client where
  sessions : List (String × Nat)
  hasOnSessionEnd : Bool
  sessionEndNotifs : List String

/-- Creates a new session and registers it under `session.ID()`
(`Client.CreateSession`; the transport construction is part of the session
model).  `token` identifies the freshly created session object. -/
def Client.createSession (c : Client) (opts : SessionOptions) (token : Nat) :
    Client × Session :=
  let session := newSession opts
  ({ c with sessions := mapInsert c.sessions session.sessionID token }, session)

/-- Removes the entry under the given key from the session map and invokes
the session-end notification (`Client.removeSession`). -/
def Client.removeSession (c : Client) (sessionID : String) : Client :=
  let c := { c with sessions := c.sessions.filter (fun kv => kv.1 != sessionID) }
  if c.hasOnSessionEnd then
    { c with sessionEndNotifs := c.sessionEndNotifs ++ [sessionID] }
  else c

/-- Applies the `client.removeSession` calls a session recorded in its
effect log to the client, in order. -/
def Client.applyRemoveCalls (c : Client) (args : List String) : Client :=
  args.foldl Client.removeSession c

/-! WebSocket transport (`pkg/transport/websocket.go`).  Time-valued
options (timeout, keep-alive interval) and the debug flag configure
external behavior and do not enter the queueing logic modelled here. -/

/-- Current connection state (`pkg/transport/transport.go`). -/
inductive ConnectionStatus where
  | disconnected
  | connecting
  | connected
  | reconnecting
  | error
deriving DecidableEq

/-- WebSocket transport state: `conn` is whether a connection handle is
held (`t.conn != nil`); `frames` is the ordered log of successful
`conn.WriteMessage` payloads; `readyClosed`/`closed` are `readyCh` and
`closeCh` being closed (with their `sync.Once` guards, as in the session
model). -/
structure WebSocketTransport where
  status : ConnectionStatus
  conn : Bool
  msgQueue : List OutgoingMessage
  frames : List OutgoingMessage
  readyClosed : Bool
  closed : Bool

/-- A fresh transport (`NewWebSocketTransport`). -/
def newWebSocketTransport : WebSocketTransport :=
  { status := .disconnected
    conn := false
    msgQueue := []
    frames := []
    readyClosed := false
    closed := false }

/-- Serializes and writes one message (`sendImmediate`).  Marshalling of
the closed union of outgoing envelopes does not fail; a write on a held
connection succeeds (a socket-level write fault is an external failure
of the remote end, outside this model). -/
def WebSocketTransport.sendImmediate (t : WebSocketTransport)
    (msg : OutgoingMessage) : WebSocketTransport × Option ChuckyError :=
  if t.conn then ({ t with frames := t.frames ++ [msg] }, none)
  else (t, some (ConnectionError "not connected"))

/-- Sends a message (`WebSocketTransport.Send`): while the connection is
not yet established (status Connecting or no handle) the message is
appended to the internal queue and no error is returned; otherwise it is
written immediately. -/
def WebSocketTransport.send (t : WebSocketTransport) (msg : OutgoingMessage) :
    WebSocketTransport × Option ChuckyError :=
  if t.status = ConnectionStatus.connecting ∨ t.conn = false then
    ({ t with msgQueue := t.msgQueue ++ [msg] }, none)
  else t.sendImmediate msg

/-- Sends a list of messages one after the other, collecting each call's
error return. -/
def WebSocketTransport.sendAll (t : WebSocketTransport) :
    List OutgoingMessage → WebSocketTransport × List (Option ChuckyError)
  | [] => (t, [])
  | msg :: rest =>
    let r := t.send msg
    let r2 := r.1.sendAll rest
    (r2.1, r.2 :: r2.2)

/-- Flushes the queued messages in enqueue order (`flushQueue`); a failing
flush write is reported through `OnError` and does not stop the loop. -/
def WebSocketTransport.flushQueue (t : WebSocketTransport) : WebSocketTransport :=
  let queue := t.msgQueue
  let t := { t with msgQueue := [] }
  queue.foldl (fun t msg => (t.sendImmediate msg).1) t

/-- Outcome of the URL parse and websocket dial inside
`WebSocketTransport.Connect`. -/
inductive DialOutcome where
  | ok
  | badURL
  | dialFailed

/-- Establishes the connection (`WebSocketTransport.Connect`): transitions
Disconnected→Connecting→Connected, stores the handle, marks readiness, and
flushes the queue on success (the read loop and keep-alive ticker started
afterwards are the concurrently running tasks modelled elsewhere); a
malformed endpoint or dial failure transitions to Error and returns a
ConnectionError. -/
def WebSocketTransport.connect (t : WebSocketTransport) (dial : DialOutcome) :
    WebSocketTransport × Option ChuckyError :=
  let t := { t with status := .connecting }
  match dial with
  | .badURL => ({ t with status := .error }, some (ConnectionError "invalid URL"))
  | .dialFailed =>
    ({ t with status := .error }, some (ConnectionError "failed to connect"))
  | .ok =>
    let t := { t with conn := true }
    let t := { t with status := .connected }
    let t := { t with readyClosed := true }
    (t.flushQueue, none)

/-! Predicates over messages used by the stated properties. -/

/-- Whether an inbound message is a handshake-ready signal: a Control
envelope with action ready/session_info, or a System envelope with subtype
init. -/
def isReadySignal : IncomingMessage → Bool
  | .control m =>
    m.payload.action == ControlActionReady ||
    m.payload.action == ControlActionSessionInfo
  | .system m => m.subtype == SystemSubtypeInit
  | _ => false

/-- Whether an inbound message is an Error envelope. -/
def isErrorEnvelope : IncomingMessage → Bool
  | .error _ => true
  | _ => false

/-- Whether an inbound message is a System/init message carrying a
non-empty session identity. -/
def isInitWithId : IncomingMessage → Bool
  | .system m => m.subtype == SystemSubtypeInit && m.sessionID != ""
  | _ => false

/-- Whether an outbound message is a Control envelope with action
"close". -/
def isCloseControl : OutgoingMessage → Bool
  | .control m => m.payload.action == ControlActionClose
  | _ => false

/-- Number of close control frames in a send log. -/
def countCloseFrames (msgs : List OutgoingMessage) : Nat :=
  (msgs.filter isCloseControl).length

/-- Number of Result envelopes in a message list. -/
def countResults (msgs : List IncomingMessage) : Nat :=
  (msgs.filter isResultMessage).length

/-! Concrete objects used by the stated properties and their witnesses. -/

/-- Session options at their Go zero value (`&types.SessionOptions{}`). -/
def opts0 : SessionOptions :=
  { model := ""
    fallbackModel := ""
    systemPrompt := .null
    maxTurns := 0
    maxBudgetUsd := 0
    maxThinkingTokens := 0
    tools := .null
    mcpServers := []
    permissionMode := ""
    outputFormat := none
    includePartialMessages := false
    env := []
    sessionID := ""
    forkSession := false
    resumeSessionAt := ""
    continueFlag := false
    settingSources := [] }

/-- A System/init message assigning the given session identity. -/
def sysInitMsg (sid : String) : IncomingMessage :=
  .system { type := MessageTypeSystem, subtype := SystemSubtypeInit,
            uuid := "", sessionID := sid, data := none }

/-- A Control envelope with action "ready". -/
def readyMsg : IncomingMessage :=
  .control { type := MessageTypeControl,
             payload := { action := ControlActionReady, data := none } }

/-- An Error envelope with the given message text. -/
def errMsg (text : String) : IncomingMessage :=
  .error { type := MessageTypeError,
           payload := { message := text, code := "", details := none } }

/-- A Result envelope. -/
def resultMsg0 : IncomingMessage :=
  .result { type := MessageTypeResult, subtype := "success", uuid := "",
            sessionID := "", durationMs := 0, durationApiMs := 0,
            isError := false, numTurns := 1, result := "", totalCostUsd := 0,
            usage := { inputTokens := 0, outputTokens := 0,
                       cacheCreationInputTokens := 0, cacheReadInputTokens := 0 },
            errors := [] }

/-- The error ToolResult produced for an unregistered tool name. -/
def toolNotFoundResult (name : String) : ToolResult :=
  { content := [.text { type := "text", text := "Tool not found: " ++ name }]
    isError := true }

/-- The ToolResult envelope answering call `callID` with result `r`. -/
def toolResultReply (callID : String) (r : Option ToolResult) : ToolResultEnvelope :=
  { type := MessageTypeToolResult
    payload := { callID := callID, result := r } }

/-- A tool call for the name "mytool". -/
def toolCallMsg0 : ToolCallEnvelope :=
  { type := MessageTypeToolCall
    payload := { callID := "call-1", toolName := "mytool", input := .null } }

/-- The User envelope `Session.Send` emits for message text `message`,
generated uuid `uuid`, and the session identity of `s` (the placeholder
"unknown" when none has been assigned yet). -/
def userEnvelope (s : Session) (message uuid : String) : SDKUserMessage :=
  { type := MessageTypeUser
    uuid := uuid
    sessionID := if s.sessionID = "" then "unknown" else s.sessionID
    message := { role := RoleUser, content := .str message }
    parentToolUseID := none }

/-- The session a fresh session becomes after Connect succeeds from a
single control-ready arrival. -/
def connectedSession0 : Session :=
  (((newSession opts0).connect none none none [readyMsg] false).getD
    (newSession opts0, none)).1

/-- A connected session in the Completed state (a fresh session that
connected from a control-ready signal and then streamed one Result). -/
def completedSession : Session :=
  (connectedSession0.streamLoop [resultMsg0]).2.1

/-- A keep-alive ping message used as a concrete outbound payload. -/
def pingMsg0 : OutgoingMessage :=
  .ping { type := MessageTypePing, payload := { timestamp := 5 } }

/-! Shape lemmas: which session fields each handler step can touch. -/

theorem forwardMessage_shape (s : Session) (m : IncomingMessage) :
    ∃ ch, s.forwardMessage m = { s with msgCh := ch } := by
  unfold Session.forwardMessage
  split
  · exact ⟨s.msgCh, rfl⟩
  · exact ⟨s.msgCh ++ [m], rfl⟩

theorem handleToolCall_shape (s : Session) (call : ToolCallEnvelope) :
    ∃ env, s.handleToolCall call =
      { s with state := .processing,
               sent := s.sent ++ [OutgoingMessage.toolResult env] } :=
  ⟨_, rfl⟩

theorem dispatchMessage_shape (s : Session) (m : IncomingMessage) :
    ∃ st ch sent', s.dispatchMessage m =
      { s with state := st, msgCh := ch, sent := sent' } := by
  cases m
  case toolCall call =>
    obtain ⟨env, h⟩ := handleToolCall_shape s call
    exact ⟨.processing, s.msgCh, _, h⟩
  all_goals
    obtain ⟨ch, h⟩ := forwardMessage_shape s _
  all_goals
    exact ⟨s.state, ch, s.sent, h⟩

theorem dispatchMessage_sessionID (s : Session) (m : IncomingMessage) :
    (s.dispatchMessage m).sessionID = s.sessionID := by
  obtain ⟨st, ch, sent', h⟩ := dispatchMessage_shape s m
  rw [h]

theorem dispatchMessage_initErr (s : Session) (m : IncomingMessage) :
    (s.dispatchMessage m).initErr = s.initErr := by
  obtain ⟨st, ch, sent', h⟩ := dispatchMessage_shape s m
  rw [h]

theorem dispatchMessage_readyClosed (s : Session) (m : IncomingMessage) :
    (s.dispatchMessage m).readyClosed = s.readyClosed := by
  obtain ⟨st, ch, sent', h⟩ := dispatchMessage_shape s m
  rw [h]

theorem handleMessage_shape (s : Session) (m : IncomingMessage) :
    ∃ sid ie rc st ch sent', s.handleMessage m =
      { s with sessionID := sid, initErr := ie, readyClosed := rc,
               state := st, msgCh := ch, sent := sent' } := by
  unfold Session.handleMessage
  split
  · obtain ⟨st, ch, sent', h⟩ := dispatchMessage_shape s m
    exact ⟨s.sessionID, s.initErr, s.readyClosed, st, ch, sent', h⟩
  · cases m
    case control cm =>
      dsimp only
      split
      · exact ⟨s.sessionID, s.initErr, true, s.state, s.msgCh, s.sent, rfl⟩
      · obtain ⟨st, ch, sent', h⟩ := dispatchMessage_shape s (.control cm)
        exact ⟨s.sessionID, s.initErr, s.readyClosed, st, ch, sent', h⟩
    case system sm =>
      dsimp only
      split
      · split
        · obtain ⟨st, ch, sent', h⟩ := dispatchMessage_shape
            { s with sessionID := sm.sessionID, readyClosed := true } (.system sm)
          exact ⟨sm.sessionID, s.initErr, true, st, ch, sent', h⟩
        · obtain ⟨st, ch, sent', h⟩ := dispatchMessage_shape
            { s with readyClosed := true } (.system sm)
          exact ⟨s.sessionID, s.initErr, true, st, ch, sent', h⟩
      · obtain ⟨st, ch, sent', h⟩ := dispatchMessage_shape s (.system sm)
        exact ⟨s.sessionID, s.initErr, s.readyClosed, st, ch, sent', h⟩
    case error em =>
      obtain ⟨st, ch, sent', h⟩ := dispatchMessage_shape
        { s with initErr := some (SessionError em.payload.message),
                 readyClosed := true } (.error em)
      exact ⟨s.sessionID, some (SessionError em.payload.message), true, st, ch, sent', h⟩
    all_goals
      obtain ⟨st, ch, sent', h⟩ := dispatchMessage_shape s _
    all_goals
      exact ⟨s.sessionID, s.initErr, s.readyClosed, st, ch, sent', h⟩

theorem handleMessage_connected (s : Session) (m : IncomingMessage) :
    (s.handleMessage m).connected = s.connected := by
  obtain ⟨sid, ie, rc, st, ch, sent', h⟩ := handleMessage_shape s m
  rw [h]

theorem handleMessage_closed (s : Session) (m : IncomingMessage) :
    (s.handleMessage m).closed = s.closed := by
  obtain ⟨sid, ie, rc, st, ch, sent', h⟩ := handleMessage_shape s m
  rw [h]

theorem processMessages_connected (s : Session) (msgs : List IncomingMessage) :
    (s.processMessages msgs).connected = s.connected := by
  induction msgs generalizing s with
  | nil => rfl
  | cons m rest ih =>
    show ((s.handleMessage m).processMessages rest).connected = s.connected
    rw [ih, handleMessage_connected]

theorem handleMessage_initErr_of_ne (s : Session) (m : IncomingMessage)
    (h : isErrorEnvelope m = false) :
    (s.handleMessage m).initErr = s.initErr := by
  unfold Session.handleMessage
  split
  · exact dispatchMessage_initErr s m
  · cases m
    case error em => simp [isErrorEnvelope] at h
    case control cm =>
      dsimp only
      split
      · rfl
      · exact dispatchMessage_initErr s (.control cm)
    case system sm =>
      dsimp only
      split
      · split
        · exact dispatchMessage_initErr
            { s with sessionID := sm.sessionID, readyClosed := true } (.system sm)
        · exact dispatchMessage_initErr { s with readyClosed := true } (.system sm)
      · exact dispatchMessage_initErr s (.system sm)
    all_goals exact dispatchMessage_initErr s _

theorem handleMessage_readyClosed_of_ne (s : Session) (m : IncomingMessage)
    (h1 : isReadySignal m = false) (h2 : isErrorEnvelope m = false) :
    (s.handleMessage m).readyClosed = s.readyClosed := by
  unfold Session.handleMessage
  split
  · exact dispatchMessage_readyClosed s m
  · cases m
    case error em => simp [isErrorEnvelope] at h2
    case control cm =>
      dsimp only
      split
      case isTrue hc =>
        exfalso
        simp only [isReadySignal, Bool.or_eq_false_iff, beq_eq_false_iff_ne, ne_eq] at h1
        rcases hc with hc | hc
        · exact h1.1 hc
        · exact h1.2 hc
      case isFalse => exact dispatchMessage_readyClosed s (.control cm)
    case system sm =>
      dsimp only
      split
      case isTrue hc =>
        exfalso
        simp only [isReadySignal, beq_eq_false_iff_ne, ne_eq] at h1
        exact h1 hc
      case isFalse => exact dispatchMessage_readyClosed s (.system sm)
    all_goals exact dispatchMessage_readyClosed s _

theorem handleMessage_readyClosed_mono (s : Session) (m : IncomingMessage)
    (h : s.readyClosed = true) :
    (s.handleMessage m).readyClosed = true := by
  unfold Session.handleMessage
  split
  · rw [dispatchMessage_readyClosed]; exact h
  · cases m
    case control cm =>
      dsimp only
      split
      · rfl
      · rw [dispatchMessage_readyClosed]; exact h
    case system sm =>
      dsimp only
      split
      · split
        · rw [dispatchMessage_readyClosed]; rfl
        · rw [dispatchMessage_readyClosed]; rfl
      · rw [dispatchMessage_readyClosed]; exact h
    case error em => rw [dispatchMessage_readyClosed]; rfl
    all_goals rw [dispatchMessage_readyClosed]; exact h

theorem handleMessage_error_step (s : Session) (em : ErrorEnvelope)
    (hc : s.connected = false) :
    (s.handleMessage (.error em)).initErr = some (SessionError em.payload.message) ∧
    (s.handleMessage (.error em)).readyClosed = true := by
  unfold Session.handleMessage
  rw [if_neg (by simp [hc])]
  dsimp only
  refine ⟨?_, ?_⟩
  · rw [dispatchMessage_initErr]; rfl
  · rw [dispatchMessage_readyClosed]; rfl

theorem handleMessage_sessionID_cases (s : Session) (m : IncomingMessage) :
    (s.handleMessage m).sessionID = s.sessionID ∨
    (isInitWithId m = true ∧ (s.handleMessage m).sessionID ≠ "") := by
  unfold Session.handleMessage
  split
  · exact Or.inl (dispatchMessage_sessionID s m)
  · cases m
    case system sm =>
      dsimp only
      split
      case isTrue hsub =>
        split
        case isTrue hid =>
          refine Or.inr ⟨?_, ?_⟩
          · simp [isInitWithId, hsub, hid]
          · rw [dispatchMessage_sessionID]
            exact hid
        case isFalse hid => exact Or.inl (by rw [dispatchMessage_sessionID]; rfl)
      case isFalse => exact Or.inl (by rw [dispatchMessage_sessionID])
    case control cm =>
      dsimp only
      split
      · exact Or.inl rfl
      · exact Or.inl (by rw [dispatchMessage_sessionID])
    case error em => exact Or.inl (by rw [dispatchMessage_sessionID]; rfl)
    all_goals exact Or.inl (by rw [dispatchMessage_sessionID])

theorem processMessages_initErr_of_ne (s : Session) (msgs : List IncomingMessage)
    (h : ∀ m ∈ msgs, isErrorEnvelope m = false) :
    (s.processMessages msgs).initErr = s.initErr := by
  induction msgs generalizing s with
  | nil => rfl
  | cons m rest ih =>
    show ((s.handleMessage m).processMessages rest).initErr = s.initErr
    rw [ih _ (fun x hx => h x (List.mem_cons_of_mem m hx)),
        handleMessage_initErr_of_ne s m (h m (List.mem_cons_self m rest))]

theorem processMessages_readyClosed_of_ne (s : Session) (msgs : List IncomingMessage)
    (h : ∀ m ∈ msgs, isReadySignal m = false ∧ isErrorEnvelope m = false) :
    (s.processMessages msgs).readyClosed = s.readyClosed := by
  induction msgs generalizing s with
  | nil => rfl
  | cons m rest ih =>
    show ((s.handleMessage m).processMessages rest).readyClosed = s.readyClosed
    rw [ih _ (fun x hx => h x (List.mem_cons_of_mem m hx)),
        handleMessage_readyClosed_of_ne s m (h m (List.mem_cons_self m rest)).1
          (h m (List.mem_cons_self m rest)).2]

theorem processMessages_readyClosed_mono (s : Session) (msgs : List IncomingMessage)
    (h : s.readyClosed = true) :
    (s.processMessages msgs).readyClosed = true := by
  induction msgs generalizing s with
  | nil => exact h
  | cons m rest ih => exact ih _ (handleMessage_readyClosed_mono s m h)

theorem processMessages_sessionID_ne (s : Session) (msgs : List IncomingMessage)
    (h : s.sessionID ≠ "") :
    (s.processMessages msgs).sessionID ≠ "" := by
  induction msgs generalizing s with
  | nil => exact h
  | cons m rest ih =>
    refine ih _ ?_
    rcases handleMessage_sessionID_cases s m with hh | ⟨-, hh⟩
    · rw [hh]; exact h
    · exact hh

theorem processMessages_sessionID_source (s : Session) (msgs : List IncomingMessage) :
    (s.processMessages msgs).sessionID = s.sessionID ∨
    ∃ m ∈ msgs, isInitWithId m = true := by
  induction msgs generalizing s with
  | nil => exact Or.inl rfl
  | cons m rest ih =>
    rcases ih (s.handleMessage m) with hh | ⟨x, hx, hix⟩
    · rcases handleMessage_sessionID_cases s m with h1 | ⟨h1, -⟩
      · refine Or.inl ?_
        show ((s.handleMessage m).processMessages rest).sessionID = s.sessionID
        rw [hh, h1]
      · exact Or.inr ⟨m, List.mem_cons_self m rest, h1⟩
    · exact Or.inr ⟨x, List.mem_cons_of_mem m hx, hix⟩

/-- C3: for every session and every sequence of inbound messages, the
session identity is the empty string until a System message with subtype
"init" carrying a non-empty session_id has been observed (a fresh session
whose identity is non-empty after processing `msgs` must have observed such
a message in `msgs`), and once non-empty it never reverts to the empty
string (processing any further messages `more` from any session state `s`
with a non-empty identity leaves it non-empty). -/
theorem sessionIdentity_invariant (opts : SessionOptions)
    (msgs more : List IncomingMessage) (s : Session) :
    (((newSession opts).processMessages msgs).sessionID = "" ∨
      ∃ m ∈ msgs, isInitWithId m = true) ∧
    (s.sessionID ≠ "" → (s.processMessages more).sessionID ≠ "") := by
  constructor
  · rcases processMessages_sessionID_source (newSession opts) msgs with h | h
    · exact Or.inl (by rw [h]; rfl)
    · exact Or.inr h
  · exact fun h => processMessages_sessionID_ne s more h

/-- C3 witness: a fresh session observing a System/init with identity
"abc" satisfies the observation disjunction, and the identity stays
non-empty across a further message. -/
theorem sessionIdentity_invariant_witness :
    ((((newSession opts0).processMessages [sysInitMsg "abc"]).sessionID = "" ∨
       ∃ m ∈ [sysInitMsg "abc"], isInitWithId m = true) ∧
      ((((newSession opts0).processMessages [sysInitMsg "abc"]).processMessages
          [resultMsg0]).sessionID ≠ "")) :=
  ⟨(sessionIdentity_invariant opts0 [sysInitMsg "abc"] [resultMsg0]
      ((newSession opts0).processMessages [sysInitMsg "abc"])).1,
   (sessionIdentity_invariant opts0 [sysInitMsg "abc"] [resultMsg0]
      ((newSession opts0).processMessages [sysInitMsg "abc"])).2
     (by rw [show ((newSession opts0).processMessages [sysInitMsg "abc"]).sessionID
               = "abc" from rfl]; decide)⟩

/-- C4: for every inbound ToolCall envelope whose tool name is not in the
session's tool registry, the session sends back a ToolResult envelope
carrying the original call identifier whose result has isError true and
whose text content is "Tool not found: " followed by the tool name (in
particular the text contains the tool name); afterwards the session state
is Processing. -/
theorem handleToolCall_unregistered (s : Session) (call : ToolCallEnvelope)
    (h : s.toolHandlers.lookup call.payload.toolName = none) :
    (s.handleToolCall call).state = .processing ∧
    (s.handleToolCall call).sent = s.sent ++
      [OutgoingMessage.toolResult
        (toolResultReply call.payload.callID
          (some (toolNotFoundResult call.payload.toolName)))] ∧
    (toolNotFoundResult call.payload.toolName).isError = true ∧
    (∃ pre, "Tool not found: " ++ call.payload.toolName
        = pre ++ call.payload.toolName) := by
  refine ⟨rfl, ?_, rfl, "Tool not found: ", rfl⟩
  unfold Session.handleToolCall
  dsimp only [Session.transportSend]
  rw [h]
  rfl

/-- C4 witness: a fresh session (empty registry) receiving a call for
"mytool" produces the error ToolResult and ends in Processing. -/
theorem handleToolCall_unregistered_witness :
    ((newSession opts0).handleToolCall toolCallMsg0).state = .processing ∧
    ((newSession opts0).handleToolCall toolCallMsg0).sent = (newSession opts0).sent ++
      [OutgoingMessage.toolResult
        (toolResultReply toolCallMsg0.payload.callID
          (some (toolNotFoundResult toolCallMsg0.payload.toolName)))] ∧
    (toolNotFoundResult toolCallMsg0.payload.toolName).isError = true ∧
    (∃ pre, "Tool not found: " ++ toolCallMsg0.payload.toolName
        = pre ++ toolCallMsg0.payload.toolName) :=
  handleToolCall_unregistered (newSession opts0) toolCallMsg0 rfl

theorem close_closed (s : Session) : (s.close).closed = true := by
  unfold Session.close
  split
  case isTrue h => exact h
  case isFalse =>
    dsimp only [Session.transportSend]
    split <;> rfl

theorem close_of_closed (s : Session) (h : s.closed = true) : s.close = s := by
  unfold Session.close
  rw [if_pos h]

theorem closeN_of_closed (s : Session) (h : s.closed = true) (n : Nat) :
    Session.closeN n s = s := by
  induction n with
  | zero => rfl
  | succ k ih =>
    show Session.closeN k s.close = s
    rw [close_of_closed s h, ih]

theorem closeN_eq_close (s : Session) (n : Nat) (h : 1 ≤ n) :
    Session.closeN n s = s.close := by
  cases n with
  | zero => exact absurd h (by decide)
  | succ k =>
    show Session.closeN k s.close = s.close
    exact closeN_of_closed s.close (close_closed s) k

theorem countCloseFrames_append (a b : List OutgoingMessage) :
    countCloseFrames (a ++ b) = countCloseFrames a + countCloseFrames b := by
  simp [countCloseFrames, List.filter_append]

/-- C7: for every N > 1, calling Close N times sends exactly one Control
envelope with action "close" over the transport (the close-frame count of
the send log rises by exactly one) and invokes the close notification
exactly once, provided the session was not closed before and a close
notification callback is registered. -/
theorem close_n_times_once (s : Session) (N : Nat) (hN : 1 < N)
    (hcl : s.closed = false) (hcb : s.handlers.onClose = true) :
    countCloseFrames (Session.closeN N s).sent = countCloseFrames s.sent + 1 ∧
    (Session.closeN N s).closeNotifs = s.closeNotifs + 1 := by
  rw [closeN_eq_close s N (Nat.le_of_lt hN)]
  unfold Session.close
  rw [if_neg (by simp [hcl])]
  dsimp only [Session.transportSend]
  rw [if_pos hcb]
  refine ⟨?_, rfl⟩
  show countCloseFrames (s.sent ++ [.control closeControlEnvelope])
      = countCloseFrames s.sent + 1
  rw [countCloseFrames_append]
  rfl

/-- C7 witness: closing a fresh session (with a close callback registered)
twice yields one close frame and one close notification. -/
theorem close_n_times_once_witness :
    countCloseFrames (Session.closeN 2
        ((newSession opts0).on
          { onMessage := false, onError := false, onClose := true })).sent
      = countCloseFrames ((newSession opts0).on
          { onMessage := false, onError := false, onClose := true }).sent + 1 ∧
    (Session.closeN 2
        ((newSession opts0).on
          { onMessage := false, onError := false, onClose := true })).closeNotifs
      = ((newSession opts0).on
          { onMessage := false, onError := false, onClose := true }).closeNotifs + 1 :=
  close_n_times_once _ 2 (by decide) rfl rfl

/-- C8: for every inbound buffer containing exactly one Result envelope, an
active Stream pass (session not closed) forwards messages up to and
including that Result envelope and then terminates (the output channel is
closed), the session transitions to Completed, and nothing else about the
session changes — in particular no transport interaction is recorded, so
neither Stream nor the Result's arrival disconnects the underlying
transport. -/
theorem stream_result_terminates (s : Session) (buf : List IncomingMessage)
    (hcl : s.closed = false) (hone : countResults buf = 1) :
    ∃ pre r, s.streamLoop buf = (pre ++ [r], { s with state := .completed }, true) ∧
      isResultMessage r = true ∧ r ∈ buf ∧
      (∀ m ∈ pre, isResultMessage m = false) ∧
      (s.streamLoop buf).2.1.sent = s.sent ∧
      (s.streamLoop buf).2.1.disconnectCalls = s.disconnectCalls := by
  induction buf with
  | nil => simp [countResults] at hone
  | cons m rest ih =>
    by_cases hr : isResultMessage m = true
    · refine ⟨[], m, ?_, hr, List.mem_cons_self m rest, fun x hx => absurd hx (List.not_mem_nil x), ?_, ?_⟩
      · show (if s.closed = true then ([], s, true)
              else if isResultMessage m = true then ([m], { s with state := .completed }, true)
              else
                let r := s.streamLoop rest
                (m :: r.1, r.2)) = ([] ++ [m], { s with state := .completed }, true)
        rw [if_neg (by simp [hcl]), if_pos hr]
        rfl
      · show (s.streamLoop (m :: rest)).2.1.sent = s.sent
        unfold Session.streamLoop
        rw [if_neg (by simp [hcl]), if_pos hr]
      · show (s.streamLoop (m :: rest)).2.1.disconnectCalls = s.disconnectCalls
        unfold Session.streamLoop
        rw [if_neg (by simp [hcl]), if_pos hr]
    · have hrest : countResults rest = 1 := by
        have hrf : isResultMessage m = false := by
          cases hh : isResultMessage m
          · rfl
          · exact absurd hh hr
        simpa [countResults, List.filter_cons, hrf] using hone
      obtain ⟨pre, r, heq, hisr, hmem, hpre, hsent, hdisc⟩ := ih hrest
      have hstep : s.streamLoop (m :: rest) = (m :: (s.streamLoop rest).1, (s.streamLoop rest).2) := by
        conv_lhs => unfold Session.streamLoop
        rw [if_neg (by simp [hcl]), if_neg hr]
      refine ⟨m :: pre, r, ?_, hisr, List.mem_cons_of_mem m hmem, ?_, ?_, ?_⟩
      · rw [hstep, heq]
        simp
      · intro x hx
        rcases List.mem_cons.mp hx with hx | hx
        · subst hx
          cases hh : isResultMessage x
          · rfl
          · exact absurd hh hr
        · exact hpre x hx
      · rw [hstep]
        show (s.streamLoop rest).2.1.sent = s.sent
        exact hsent
      · rw [hstep]
        show (s.streamLoop rest).2.1.disconnectCalls = s.disconnectCalls
        exact hdisc

/-- C8 witness: a fresh session streaming the buffer containing one Result
envelope. -/
theorem stream_result_terminates_witness :
    ∃ pre r, (newSession opts0).streamLoop [resultMsg0]
        = (pre ++ [r], { newSession opts0 with state := .completed }, true) ∧
      isResultMessage r = true ∧ r ∈ [resultMsg0] ∧
      (∀ m ∈ pre, isResultMessage m = false) ∧
      ((newSession opts0).streamLoop [resultMsg0]).2.1.sent = (newSession opts0).sent ∧
      ((newSession opts0).streamLoop [resultMsg0]).2.1.disconnectCalls
        = (newSession opts0).disconnectCalls :=
  stream_result_terminates (newSession opts0) [resultMsg0] rfl rfl

/-- C9: calling Send before any explicit Connect call first performs
Connect — a failing Connect's error is returned unchanged and nothing is
emitted, a blocked Connect blocks Send — and on Connect's success the
state transitions to Processing and a User envelope is emitted whose
session_id field is the current session identity, or the literal
"unknown" when no identity has been assigned yet. -/
theorem send_auto_connects (s : Session) (tcErr wrErr siErr : Option ChuckyError)
    (arrivals : List IncomingMessage) (ctxDone : Bool) (message uuid : String)
    (hc : s.connected = false) :
    (∀ s' e, s.connect tcErr wrErr siErr arrivals ctxDone = some (s', some e) →
       s.send tcErr wrErr siErr arrivals ctxDone message uuid = some (s', some e)) ∧
    (∀ s', s.connect tcErr wrErr siErr arrivals ctxDone = some (s', none) →
       ∃ s2, s.send tcErr wrErr siErr arrivals ctxDone message uuid = some (s2, none) ∧
         s2.state = .processing ∧
         s2.sent = s'.sent ++ [OutgoingMessage.user (userEnvelope s' message uuid)]) ∧
    (s.connect tcErr wrErr siErr arrivals ctxDone = none →
       s.send tcErr wrErr siErr arrivals ctxDone message uuid = none) := by
  refine ⟨?_, ?_, ?_⟩
  · intro s' e hconn
    unfold Session.send
    rw [if_neg (by simp [hc]), hconn]
  · intro s' hconn
    have hs : s.send tcErr wrErr siErr arrivals ctxDone message uuid
        = some (s'.sendBody message uuid) := by
      unfold Session.send
      rw [if_neg (by simp [hc]), hconn]
    refine ⟨(s'.sendBody message uuid).1, ?_, rfl, rfl⟩
    rw [hs]
    exact rfl
  · intro hconn
    unfold Session.send
    rw [if_neg (by simp [hc]), hconn]

/-- C9 witness: a fresh session auto-connecting from a control-ready
arrival sends the user message with the placeholder identity. -/
theorem send_auto_connects_witness :
    ∃ s2, (newSession opts0).send none none none [readyMsg] false "hi" "u-1"
        = some (s2, none) ∧
      s2.state = .processing ∧
      s2.sent = connectedSession0.sent ++
        [OutgoingMessage.user (userEnvelope connectedSession0 "hi" "u-1")] :=
  (send_auto_connects (newSession opts0) none none none [readyMsg] false "hi" "u-1" rfl).2.1
    connectedSession0 rfl

/-- C10: the Completed state is not terminal for Send — for every
connected session whose state is Completed, a subsequent Send does not
return an error, sets the state back to Processing, and emits a new User
envelope over the transport (the connect-environment parameters are
irrelevant on this path). -/
theorem send_after_completed (s : Session) (tcErr wrErr siErr : Option ChuckyError)
    (arrivals : List IncomingMessage) (ctxDone : Bool) (message uuid : String)
    (hconn : s.connected = true) (hst : s.state = .completed) :
    ∃ s2, s.send tcErr wrErr siErr arrivals ctxDone message uuid = some (s2, none) ∧
      s2.state = .processing ∧
      s2.sent = s.sent ++ [OutgoingMessage.user (userEnvelope s message uuid)] := by
  refine ⟨(s.sendBody message uuid).1, ?_, rfl, rfl⟩
  unfold Session.send
  rw [if_pos hconn]
  exact rfl

/-- C10 witness: sending on the concrete completed connected session. -/
theorem send_after_completed_witness :
    ∃ s2, completedSession.send none none none [] false "again" "u-2"
        = some (s2, none) ∧
      s2.state = .processing ∧
      s2.sent = completedSession.sent ++
        [OutgoingMessage.user (userEnvelope completedSession "again" "u-2")] :=
  send_after_completed completedSession none none none [] false "again" "u-2" rfl rfl

theorem processMessages_append (s : Session) (a b : List IncomingMessage) :
    s.processMessages (a ++ b) = (s.processMessages a).processMessages b := by
  simp [Session.processMessages, List.foldl_append]

theorem readyAndErr_after (s1 : Session) (em : ErrorEnvelope)
    (pre post : List IncomingMessage)
    (h1c : s1.connected = false)
    (hpre : ∀ m ∈ pre, isReadySignal m = false ∧ isErrorEnvelope m = false)
    (hpost : ∀ m ∈ post, isErrorEnvelope m = false) :
    (s1.processMessages (pre ++ .error em :: post)).readyClosed = true ∧
    (s1.processMessages (pre ++ .error em :: post)).initErr
      = some (SessionError em.payload.message) := by
  rw [processMessages_append]
  have hA_conn : (s1.processMessages pre).connected = false := by
    rw [processMessages_connected]; exact h1c
  obtain ⟨hie, hrc⟩ := handleMessage_error_step (s1.processMessages pre) em hA_conn
  constructor
  · show (((s1.processMessages pre).handleMessage (.error em)).processMessages
        post).readyClosed = true
    exact processMessages_readyClosed_mono _ post hrc
  · show (((s1.processMessages pre).handleMessage (.error em)).processMessages
        post).initErr = some (SessionError em.payload.message)
    rw [processMessages_initErr_of_ne _ post hpost, hie]

theorem connectAwait_initErr (s : Session) (ctxDone : Bool) (e : ChuckyError)
    (hr : s.readyClosed = true) (hi : s.initErr = some e) :
    s.connectAwait ctxDone = some ({ s with state := .error }, some (.chucky e)) := by
  unfold Session.connectAwait
  rw [if_pos hr, hi]

theorem connect_unfold (s : Session) (arrivals : List IncomingMessage)
    (ctxDone : Bool) (hc : s.connected = false) :
    s.connect none none none arrivals ctxDone
      = Session.connectAwait
          ((({ s with state := .initializing }).transportSend
             (.init (initEnvelope s.options))).processMessages arrivals) ctxDone := by
  unfold Session.connect
  rw [if_neg (by simp [hc])]

/-- C5: if an Error envelope arrives before any handshake-ready signal
(no Control ready/session_info or System/init message and no earlier Error
precedes it among the arrivals) while Connect is waiting, Connect returns a
SessionError carrying that envelope's message text and the session state
becomes Error. -/
theorem connect_error_before_ready (s : Session) (em : ErrorEnvelope)
    (pre post : List IncomingMessage) (ctxDone : Bool)
    (hc : s.connected = false)
    (hpre : ∀ m ∈ pre, isReadySignal m = false ∧ isErrorEnvelope m = false)
    (hpost : ∀ m ∈ post, isErrorEnvelope m = false) :
    ∃ s', s.connect none none none (pre ++ .error em :: post) ctxDone
        = some (s', some (.chucky (SessionError em.payload.message)))
      ∧ s'.state = .error := by
  rw [connect_unfold s (pre ++ .error em :: post) ctxDone hc]
  have key := readyAndErr_after
    (({ s with state := .initializing }).transportSend
      (.init (initEnvelope s.options))) em pre post hc hpre hpost
  rw [connectAwait_initErr _ ctxDone (SessionError em.payload.message) key.1 key.2]
  exact ⟨_, rfl, rfl⟩

/-- C5 witness: a fresh session connecting while a single Error envelope
with text "boom" arrives. -/
theorem connect_error_before_ready_witness :
    ∃ s', (newSession opts0).connect none none none [errMsg "boom"] false
        = some (s', some (.chucky (SessionError "boom")))
      ∧ s'.state = .error :=
  connect_error_before_ready (newSession opts0)
    { type := MessageTypeError, payload := { message := "boom", code := "", details := none } }
    [] [] false rfl
    (fun m hm => absurd hm (List.not_mem_nil m))
    (fun m hm => absurd hm (List.not_mem_nil m))

/-- C1 (behavior at the claim's scenario): a fresh session's Connect
completes successfully from a single Control/ready arrival alone
(no error, connected, state Ready, identity still empty); a System/init
message with identity "abc" arriving after Connect has completed is still
delivered to the inbound stream, but the session identity is NOT updated —
the update in `handleMessage` is guarded by the not-yet-connected check,
contradicting the spec and the code's own comment. -/
theorem connect_ready_then_late_init :
    (((newSession opts0).connect none none none [readyMsg] false).map
        fun p => (p.2.isNone, p.1.connected, p.1.state, p.1.sessionID, p.1.msgCh))
      = some (true, true, SessionState.ready, "", []) ∧
    (((newSession opts0).connect none none none [readyMsg] false).map
        fun p => ((p.1.handleMessage (sysInitMsg "abc")).sessionID,
                  (p.1.handleMessage (sysInitMsg "abc")).msgCh))
      = some ("", [sysInitMsg "abc"]) :=
  ⟨rfl, rfl⟩

/-- C2 (behavior at the claim's scenario): a client registers a fresh
session under its identity at creation time (the empty string); after the
server assigns identity "abc" (System/init before connect completes),
Close calls `removeSession "abc"`, which does not match the registration
key, so the session is still in the client's registry after Close. -/
theorem close_leaves_registry_entry :
    ((({ sessions := [], hasOnSessionEnd := false, sessionEndNotifs := [] } :
        Client).createSession opts0 7).2.processMessages
          [sysInitMsg "abc"]).close.removeSessionCalls = ["abc"] ∧
    (({ sessions := [], hasOnSessionEnd := false, sessionEndNotifs := [] } :
        Client).createSession opts0 7).1.sessions = [("", 7)] ∧
    ((({ sessions := [], hasOnSessionEnd := false, sessionEndNotifs := [] } :
        Client).createSession opts0 7).1.applyRemoveCalls
      (((({ sessions := [], hasOnSessionEnd := false, sessionEndNotifs := [] } :
          Client).createSession opts0 7).2.processMessages
            [sysInitMsg "abc"]).close.removeSessionCalls)).sessions = [("", 7)] :=
  ⟨rfl, rfl, rfl⟩

theorem sendAll_queueing (t : WebSocketTransport) (msgs : List OutgoingMessage)
    (h : t.status = ConnectionStatus.connecting ∨ t.conn = false) :
    (t.sendAll msgs).1 = { t with msgQueue := t.msgQueue ++ msgs } ∧
    (t.sendAll msgs).2 = msgs.map (fun _ => none) := by
  induction msgs generalizing t with
  | nil =>
    refine ⟨?_, rfl⟩
    show t = { t with msgQueue := t.msgQueue ++ [] }
    rw [List.append_nil]
  | cons m rest ih =>
    have hsend : t.send m = ({ t with msgQueue := t.msgQueue ++ [m] }, none) := by
      unfold WebSocketTransport.send
      rw [if_pos h]
    obtain ⟨ih1, ih2⟩ := ih { t with msgQueue := t.msgQueue ++ [m] } h
    constructor
    · show ((t.send m).1.sendAll rest).1 = { t with msgQueue := t.msgQueue ++ m :: rest }
      rw [hsend]
      show (({ t with msgQueue := t.msgQueue ++ [m] } :
          WebSocketTransport).sendAll rest).1 = _
      rw [ih1]
      show ({ t with msgQueue := (t.msgQueue ++ [m]) ++ rest } : WebSocketTransport) = _
      rw [List.append_assoc]
      rfl
    · show (t.send m).2 :: ((t.send m).1.sendAll rest).2 = none :: rest.map (fun _ => none)
      rw [hsend]
      show none :: (({ t with msgQueue := t.msgQueue ++ [m] } :
          WebSocketTransport).sendAll rest).2 = none :: rest.map (fun _ => none)
      rw [ih2]

theorem foldl_sendImmediate (q : List OutgoingMessage) (t : WebSocketTransport)
    (h : t.conn = true) :
    q.foldl (fun t msg => (t.sendImmediate msg).1) t
      = { t with frames := t.frames ++ q } := by
  induction q generalizing t with
  | nil =>
    show t = { t with frames := t.frames ++ [] }
    rw [List.append_nil]
  | cons m rest ih =>
    show rest.foldl (fun t msg => (t.sendImmediate msg).1) (t.sendImmediate m).1
        = { t with frames := t.frames ++ m :: rest }
    have hstep : (t.sendImmediate m).1 = { t with frames := t.frames ++ [m] } := by
      unfold WebSocketTransport.sendImmediate
      rw [if_pos h]
    rw [hstep, ih { t with frames := t.frames ++ [m] } h]
    show ({ t with frames := (t.frames ++ [m]) ++ rest } : WebSocketTransport) = _
    rw [List.append_assoc]
    rfl

theorem flushQueue_conn (t : WebSocketTransport) (h : t.conn = true) :
    t.flushQueue = { t with msgQueue := [], frames := t.frames ++ t.msgQueue } := by
  unfold WebSocketTransport.flushQueue
  dsimp only
  rw [foldl_sendImmediate t.msgQueue { t with msgQueue := [] } h]

theorem connect_ok_flushes (t : WebSocketTransport) :
    t.connect .ok
      = ({ t with
            status := ConnectionStatus.connected
            conn := true
            readyClosed := true
            msgQueue := []
            frames := t.frames ++ t.msgQueue },
         none) := by
  unfold WebSocketTransport.connect
  dsimp only
  rw [flushQueue_conn _ rfl]

/-- C6: for every message passed to `WebSocketTransport.Send` while the
status is Connecting or there is no connection handle, Send appends the
message to the internal queue and returns no error (for a whole batch: all
error returns are nil and the queue is extended in order); on Connect's
success path every queued message is then written to the connection in the
original enqueue order, and the queue is emptied. -/
theorem transport_send_queues_then_flushes (t : WebSocketTransport)
    (msgs : List OutgoingMessage)
    (h : t.status = ConnectionStatus.connecting ∨ t.conn = false) :
    (t.sendAll msgs).2 = msgs.map (fun _ => none) ∧
    (t.sendAll msgs).1.msgQueue = t.msgQueue ++ msgs ∧
    ((t.sendAll msgs).1.connect .ok).1.frames = t.frames ++ (t.msgQueue ++ msgs) ∧
    ((t.sendAll msgs).1.connect .ok).1.msgQueue = [] := by
  obtain ⟨h1, h2⟩ := sendAll_queueing t msgs h
  refine ⟨h2, ?_, ?_, ?_⟩
  · rw [h1]
  · rw [h1, connect_ok_flushes]
  · rw [h1, connect_ok_flushes]

/-- C6 witness: a fresh (disconnected, no handle) transport queues two
messages without error and flushes them in order on Connect. -/
theorem transport_send_queues_then_flushes_witness :
    (newWebSocketTransport.sendAll [pingMsg0, .control closeControlEnvelope]).2
      = [pingMsg0, .control closeControlEnvelope].map (fun _ => none) ∧
    (newWebSocketTransport.sendAll [pingMsg0, .control closeControlEnvelope]).1.msgQueue
      = newWebSocketTransport.msgQueue ++ [pingMsg0, .control closeControlEnvelope] ∧
    ((newWebSocketTransport.sendAll
        [pingMsg0, .control closeControlEnvelope]).1.connect .ok).1.frames
      = newWebSocketTransport.frames ++
        (newWebSocketTransport.msgQueue ++ [pingMsg0, .control closeControlEnvelope]) ∧
    ((newWebSocketTransport.sendAll
        [pingMsg0, .control closeControlEnvelope]).1.connect .ok).1.msgQueue = [] :=
  transport_send_queues_then_flushes newWebSocketTransport
    [pingMsg0, .control closeControlEnvelope] (Or.inr rfl)

end ChuckySDK
